import Mathlib

/-!
Verification of the backtest execution engine of the
`generative-ai-backtesting` repository.

The definitions below are a shallow embedding of
`src/core/simple_backtest_engine.py` (the `Entry`/`Position` data model,
the `BacktestEngine` state machine) and of the static cost-model lookup
tables in `src/config/market_configs/crypto_config.py` and
`src/config/market_configs/futures_config.py`.

Python `float` values are modelled as `ℚ`; the Python builtin `round`
(round-half-to-even to an integer) is modelled by `pyRound`;
`datetime` timestamps are modelled as `ℕ` (only ordering/identity of
timestamps matters to the engine); a raised `ValueError` is modelled
by `Except.error`.
-/

namespace Backtest

/-- Model of `SignalType` from `models/enums.py`: only BUY and SELL are active. -/
inductive SignalType where
  | BUY
  | SELL
deriving DecidableEq, Repr

/-- Model of `TradingSignal` from `models/simple_signals.py`: one trading decision. -/
structure TradingSignal where
  timestamp : ℕ
  signal_type : SignalType
  symbol : String
  price : ℚ
  position_size_pct : ℚ
deriving DecidableEq, Repr

/-- Model of `Entry` from `simple_backtest_engine.py`: one fill inside a position. -/
structure Entry where
  timestamp : ℕ
  price : ℚ
  size_usdt : ℚ
  fee : ℚ
  slippage_cost : ℚ
deriving DecidableEq, Repr

/-- Model of `Position` from `simple_backtest_engine.py`: an open position, a list of entries. -/
structure Position where
  symbol : String
  entry_time : ℕ
  entries : List Entry
deriving DecidableEq, Repr

/-- Model of `Position.add_entry`: append one more entry to the position. -/
def Position.add_entry (p : Position) (timestamp : ℕ)
    (price size_usdt fee slippage_cost : ℚ) : Position :=
  { p with entries := p.entries ++ [⟨timestamp, price, size_usdt, fee, slippage_cost⟩] }

/-- Model of `Position.total_cost`: total USDT spent over all entries. -/
def Position.total_cost (p : Position) : ℚ :=
  (p.entries.map Entry.size_usdt).sum

/-- Model of `Position.total_fees_on_entries`: total fees paid over all entries. -/
def Position.total_fees_on_entries (p : Position) : ℚ :=
  (p.entries.map Entry.fee).sum

/-- Model of `Position.total_slippage_on_entries`: total slippage cost over all entries. -/
def Position.total_slippage_on_entries (p : Position) : ℚ :=
  (p.entries.map Entry.slippage_cost).sum

/-- Model of `Position.total_crypto`: total asset quantity, `sum(size_usdt / price)`. -/
def Position.total_crypto (p : Position) : ℚ :=
  (p.entries.map (fun e => e.size_usdt / e.price)).sum

/-- Model of `Position.average_entry_price`: `total_cost / total_crypto`, 0 on empty. -/
def Position.average_entry_price (p : Position) : ℚ :=
  if p.total_crypto = 0 then 0 else p.total_cost / p.total_crypto

/-- Model of the Python builtin `round` to an integer: nearest integer, ties to even. -/
def pyRound (q : ℚ) : ℤ :=
  if q - ⌊q⌋ < 1/2 then ⌊q⌋
  else if 1/2 < q - ⌊q⌋ then ⌊q⌋ + 1
  else if ⌊q⌋ % 2 = 0 then ⌊q⌋ else ⌊q⌋ + 1

/-- The cost parameters `BacktestEngine.__init__` extracts from `market_config`. -/
structure EngineParams where
  tick_size : ℚ
  slippage_fixed : ℚ
  slippage_pct : ℚ
  fee_fixed : ℚ
  fee_rate : ℚ
deriving DecidableEq, Repr

/-- Parameters extracted by `BacktestEngine.__init__` when the key
`slippage_ticks` is present in `market_config` (futures regime): fixed
slippage `slippage_ticks * tick_size`, flat fee. -/
def futuresParams (tick_size slippage_ticks exchange_fee : ℚ) : EngineParams :=
  { tick_size := tick_size
    slippage_fixed := slippage_ticks * tick_size
    slippage_pct := 0
    fee_fixed := exchange_fee
    fee_rate := 0 }

/-- Parameters extracted by `BacktestEngine.__init__` otherwise (crypto
regime): percentage slippage and percentage fee. -/
def cryptoParams (tick_size slippage exchange_fee : ℚ) : EngineParams :=
  { tick_size := tick_size
    slippage_fixed := 0
    slippage_pct := slippage
    fee_fixed := 0
    fee_rate := exchange_fee }

/-- Model of `BacktestEngine._apply_slippage_to_price`: move the price against the
trader, then snap to the tick grid via `round(price / tick_size) * tick_size`. -/
def apply_slippage_to_price (par : EngineParams) (price : ℚ) (is_buy : Bool) : ℚ :=
  let real_price :=
    if par.slippage_fixed > 0 then
      if is_buy then price + par.slippage_fixed else price - par.slippage_fixed
    else if is_buy then price * (1 + par.slippage_pct)
    else price * (1 - par.slippage_pct)
  (pyRound (real_price / par.tick_size) : ℚ) * par.tick_size

/-- The fee expression `fee_fixed if fee_fixed > 0 else notional * fee_rate`,
used verbatim for the entry fee (`_handle_buy`) and the exit fee (`_handle_sell`). -/
def compute_fee (par : EngineParams) (notional : ℚ) : ℚ :=
  if par.fee_fixed > 0 then par.fee_fixed else notional * par.fee_rate

/-- One row of `BacktestEngine.completed_trades` (the dict literal built in
`_handle_sell`). -/
structure CompletedTrade where
  symbol : String
  entry_time : ℕ
  exit_time : ℕ
  num_entries : ℕ
  avg_entry_price : ℚ
  exit_price : ℚ
  total_cost : ℚ
  exit_value : ℚ
  total_entry_fees : ℚ
  exit_fee : ℚ
  total_fees : ℚ
  entry_slippage : ℚ
  exit_slippage : ℚ
  total_slippage : ℚ
  gross_pnl : ℚ
  net_pnl : ℚ
  capital_after : ℚ
  pnl_pct : ℚ
deriving DecidableEq, Repr

/-- The mutable state of `BacktestEngine`: available capital, the single
`current_position` slot, and the append-only completed-trade ledger. -/
structure EngineState where
  capital : ℚ
  current_position : Option Position
  completed_trades : List CompletedTrade
deriving DecidableEq, Repr

/-- Model of `BacktestEngine._handle_buy`. -/
def handle_buy (par : EngineParams) (s : EngineState) (sig : TradingSignal) :
    EngineState :=
  let entry_size_usdt := s.capital * sig.position_size_pct
  if entry_size_usdt ≤ 0 then s
  else
    let real_price := apply_slippage_to_price par sig.price true
    let entry_fee := compute_fee par entry_size_usdt
    let entry_slippage_cost := |real_price - sig.price| * (entry_size_usdt / real_price)
    let pos :=
      match s.current_position with
      | none => Position.mk sig.symbol sig.timestamp []
      | some q => q
    let pos := pos.add_entry sig.timestamp real_price entry_size_usdt
      entry_fee entry_slippage_cost
    { s with
      current_position := some pos
      capital := s.capital - (entry_size_usdt + entry_fee) }

/-- Model of `BacktestEngine._handle_sell`. -/
def handle_sell (par : EngineParams) (s : EngineState) (sig : TradingSignal) :
    EngineState :=
  match s.current_position with
  | none => s
  | some pos =>
    let real_price := apply_slippage_to_price par sig.price false
    let total_crypto := pos.total_crypto
    let exit_value_usdt := total_crypto * real_price
    let exit_fee := compute_fee par exit_value_usdt
    let exit_slippage_cost := |sig.price - real_price| * total_crypto
    let total_cost := pos.total_cost
    let total_entry_fees := pos.total_fees_on_entries
    let total_entry_slippage := pos.total_slippage_on_entries
    let gross_pnl := exit_value_usdt - total_cost
    let net_pnl := gross_pnl - exit_fee
    let new_capital := s.capital + (exit_value_usdt - exit_fee)
    let trade : CompletedTrade :=
      { symbol := pos.symbol
        entry_time := pos.entry_time
        exit_time := sig.timestamp
        num_entries := pos.entries.length
        avg_entry_price := pos.average_entry_price
        exit_price := real_price
        total_cost := total_cost
        exit_value := exit_value_usdt
        total_entry_fees := total_entry_fees
        exit_fee := exit_fee
        total_fees := total_entry_fees + exit_fee
        entry_slippage := total_entry_slippage
        exit_slippage := exit_slippage_cost
        total_slippage := total_entry_slippage + exit_slippage_cost
        gross_pnl := gross_pnl
        net_pnl := net_pnl
        capital_after := new_capital
        pnl_pct := if total_cost > 0 then net_pnl / total_cost * 100 else 0 }
    { capital := new_capital
      current_position := none
      completed_trades := s.completed_trades ++ [trade] }

/-- One iteration of the dispatch loop in `BacktestEngine.run`. -/
def step (par : EngineParams) (s : EngineState) (sig : TradingSignal) :
    EngineState :=
  match sig.signal_type with
  | SignalType.BUY => handle_buy par s sig
  | SignalType.SELL => handle_sell par s sig

/-- The engine state right after `BacktestEngine.__init__`. -/
def initState (initial_capital : ℚ) : EngineState :=
  { capital := initial_capital
    current_position := none
    completed_trades := [] }

/-- Model of `BacktestEngine.run`: fold the dispatch loop over the signal list.
We keep the whole final state; the returned results dataframe is the
`completed_trades` field. -/
def run (par : EngineParams) (s : EngineState) (signals : List TradingSignal) :
    EngineState :=
  signals.foldl (step par) s

/-- Observable for the at-most-one-open-position invariant: how many open
positions the engine state holds for a given symbol. -/
def open_position_count (s : EngineState) (symbol : String) : ℕ :=
  match s.current_position with
  | none => 0
  | some p => if p.symbol = symbol then 1 else 0

/-- One record per instrument in `CRYPTO_CONFIG` of `crypto_config.py`. -/
structure CryptoCfg where
  tick_size : ℚ
  exchange_fee : ℚ
  slippage : ℚ
  price_precision : ℕ
deriving DecidableEq, Repr

/-- Model of `CRYPTO_CONFIG` from `crypto_config.py`, as a nested association list. -/
def CRYPTO_CONFIG : List (String × List (String × CryptoCfg)) :=
  [("Binance",
     [("BTC", ⟨1/100, 1/1000, 2/10000, 2⟩),
      ("ETH", ⟨1/100, 1/1000, 2/10000, 2⟩)]),
   ("Kucoin",
     [("BTC", ⟨1/10000, 8/10000, 3/10000, 4⟩),
      ("ETH", ⟨1/10000, 8/10000, 3/10000, 4⟩)])]

/-- Membership test `exchange in CRYPTO_CONFIG and symbol in CRYPTO_CONFIG[exchange]`,
returning the stored record. -/
def crypto_lookup (exchange symbol : String) : Option CryptoCfg :=
  (CRYPTO_CONFIG.lookup exchange).bind (fun tbl => tbl.lookup symbol)

/-- Model of `get_crypto_config` from `crypto_config.py`: the stored record, or a raised
`ValueError` when the pair is absent. -/
def get_crypto_config (exchange symbol : String) : Except String CryptoCfg :=
  match crypto_lookup exchange symbol with
  | none => Except.error
      ("No se ha definido configuración para " ++ symbol ++ " en " ++ exchange)
  | some cfg => Except.ok cfg

/-- One record per instrument in `FUTURES_CONFIG` of `futures_config.py`. -/
structure FuturesCfg where
  tick_size : ℚ
  tick_value : ℚ
  contract_size : ℚ
  slippage_ticks : ℚ
  exchange_fee : ℚ
  price_precision : ℕ
  currency : String
deriving DecidableEq, Repr

/-- Model of `FUTURES_CONFIG` from `futures_config.py`, as a nested association list. -/
def FUTURES_CONFIG : List (String × List (String × FuturesCfg)) :=
  [("CME",
     [("ES", ⟨1/4, 25/2, 50, 1, 139/100, 2, "USD"⟩),
      ("NQ", ⟨1/4, 5, 20, 1, 139/100, 2, "USD"⟩),
      ("GC", ⟨1/10, 10, 100, 1, 8/5, 2, "USD"⟩),
      ("CL", ⟨1/100, 10, 1000, 2, 3/2, 2, "USD"⟩)])]

/-- Membership test on `FUTURES_CONFIG`, returning the raw record. -/
def futures_lookup (exchange symbol : String) : Option FuturesCfg :=
  (FUTURES_CONFIG.lookup exchange).bind (fun tbl => tbl.lookup symbol)

/-- The dict `get_futures_config` builds from the raw record (it duplicates
`currency` into `quote_currency`). -/
structure FuturesEngineCfg where
  tick_size : ℚ
  tick_value : ℚ
  slippage_ticks : ℚ
  exchange_fee : ℚ
  price_precision : ℕ
  contract_size : ℚ
  currency : String
  quote_currency : String
deriving DecidableEq, Repr

/-- Model of `get_futures_config` from `futures_config.py`: the engine-compatible record
built from the stored entry, or a raised `ValueError` when the pair is absent. -/
def get_futures_config (exchange symbol : String) : Except String FuturesEngineCfg :=
  match futures_lookup exchange symbol with
  | none => Except.error
      ("No se ha definido configuración para " ++ symbol ++ " en " ++ exchange)
  | some raw => Except.ok
      { tick_size := raw.tick_size
        tick_value := raw.tick_value
        slippage_ticks := raw.slippage_ticks
        exchange_fee := raw.exchange_fee
        price_precision := raw.price_precision
        contract_size := raw.contract_size
        currency := raw.currency
        quote_currency := raw.currency }

/-! ### Helper lemmas -/

theorem pyRound_intCast (k : ℤ) : pyRound (k : ℚ) = k := by
  unfold pyRound
  rw [Int.floor_intCast]
  norm_num

/-! ### Claims -/

/-- C4: slippage application. In the percentage regime a BUY executes at
`price * (1 + slippage_rate)` and a SELL at `price * (1 - slippage_rate)`;
in the fixed-tick regime a BUY executes at `price + slippage_ticks * tick_size`
and a SELL at `price - slippage_ticks * tick_size`; in both regimes the result
is snapped to the tick grid by `round(price / tick_size) * tick_size`. -/
theorem slippage_application (tick slip fee ticks price : ℚ)
    (htick : 0 < tick) (hticks : 0 ≤ ticks) :
    apply_slippage_to_price (cryptoParams tick slip fee) price true
      = (pyRound (price * (1 + slip) / tick) : ℚ) * tick
  ∧ apply_slippage_to_price (cryptoParams tick slip fee) price false
      = (pyRound (price * (1 - slip) / tick) : ℚ) * tick
  ∧ apply_slippage_to_price (futuresParams tick ticks fee) price true
      = (pyRound ((price + ticks * tick) / tick) : ℚ) * tick
  ∧ apply_slippage_to_price (futuresParams tick ticks fee) price false
      = (pyRound ((price - ticks * tick) / tick) : ℚ) * tick := by
  refine ⟨?_, ?_, ?_, ?_⟩
  · simp [apply_slippage_to_price, cryptoParams]
  · simp [apply_slippage_to_price, cryptoParams]
  · rcases hticks.eq_or_lt with h | h
    · simp [apply_slippage_to_price, futuresParams, ← h]
    · have hpos : 0 < ticks * tick := mul_pos h htick
      simp [apply_slippage_to_price, futuresParams, hpos]
  · rcases hticks.eq_or_lt with h | h
    · simp [apply_slippage_to_price, futuresParams, ← h]
    · have hpos : 0 < ticks * tick := mul_pos h htick
      simp [apply_slippage_to_price, futuresParams, hpos]

/-- Witness for C4 at `tick_size = 1/4`, `slippage_ticks = 1` (the ES futures
parameters) and the crypto parameters of Binance BTC. -/
theorem slippage_application_witness :
    apply_slippage_to_price (futuresParams (1/4) 1 (139/100)) 4500 true
      = (pyRound ((4500 + 1 * (1/4)) / (1/4)) : ℚ) * (1/4) :=
  (slippage_application (1/4) (2/10000) (139/100) 1 4500
    (by norm_num) (by norm_num)).2.2.1

/-- C5: fee computation. The percentage regime charges `notional * fee_rate`;
the fixed regime charges the flat `exchange_fee` whatever the notional.
Both `handle_buy` (entry fee) and `handle_sell` (exit fee) charge fees through
the same expression `compute_fee`. -/
theorem fee_computation (tick slip fee_rate ticks exchange_fee notional : ℚ)
    (hfee : 0 ≤ exchange_fee) :
    compute_fee (cryptoParams tick slip fee_rate) notional = notional * fee_rate
  ∧ compute_fee (futuresParams tick ticks exchange_fee) notional = exchange_fee := by
  constructor
  · simp [compute_fee, cryptoParams]
  · rcases hfee.eq_or_lt with h | h
    · simp [compute_fee, futuresParams, ← h]
    · simp [compute_fee, futuresParams, h]

/-- Witness for C5: the flat CME fee 1.39 is charged on notionals 100 and
999999 alike, and the Binance percentage fee is proportional to notional. -/
theorem fee_computation_witness :
    compute_fee (cryptoParams (1/100) (2/10000) (1/1000)) 500 = 500 * (1/1000)
  ∧ compute_fee (futuresParams (1/4) 1 (139/100)) 100 = 139/100
  ∧ compute_fee (futuresParams (1/4) 1 (139/100)) 999999 = 139/100 :=
  ⟨(fee_computation (1/100) (2/10000) (1/1000) 1 (139/100) 500 (by norm_num)).1,
   (fee_computation (1/4) (2/10000) (1/1000) 1 (139/100) 100 (by norm_num)).2,
   (fee_computation (1/4) (2/10000) (1/1000) 1 (139/100) 999999 (by norm_num)).2⟩

/-- C8: tick-rounding idempotence. On a price that is an exact integer
multiple of `tick_size`, applying slippage with zero slippage parameter
(zero rate in the percentage regime, zero ticks in the fixed regime)
returns the price unchanged, for either side. -/
theorem tick_rounding_idempotent (tick fee : ℚ) (k : ℤ) (b : Bool)
    (htick : 0 < tick) :
    apply_slippage_to_price (cryptoParams tick 0 fee) ((k : ℚ) * tick) b
      = (k : ℚ) * tick
  ∧ apply_slippage_to_price (futuresParams tick 0 fee) ((k : ℚ) * tick) b
      = (k : ℚ) * tick := by
  have hne : tick ≠ 0 := ne_of_gt htick
  constructor <;> cases b <;>
    simp [apply_slippage_to_price, cryptoParams, futuresParams,
      mul_div_assoc, div_self hne, pyRound_intCast]

/-- Witness for C8 at `tick_size = 1/100` and price `123.45 = 12345 * (1/100)`. -/
theorem tick_rounding_idempotent_witness :
    apply_slippage_to_price (cryptoParams (1/100) 0 (1/1000))
      ((12345 : ℤ) * (1/100 : ℚ)) true = (12345 : ℤ) * (1/100 : ℚ) :=
  (tick_rounding_idempotent (1/100) (1/1000) 12345 true (by norm_num)).1

/-- C6: no-op safety of soft conditions. A SELL with no open position, and a
BUY whose computed notional `capital * position_size_pct` is ≤ 0, leave the
whole engine state (capital, open position, completed-trade ledger) unchanged;
the handlers are total functions, so no error is raised. -/
theorem soft_conditions_noop (par : EngineParams) (s : EngineState)
    (sig : TradingSignal) :
    (sig.signal_type = SignalType.SELL → s.current_position = none →
      step par s sig = s)
  ∧ (sig.signal_type = SignalType.BUY → s.capital * sig.position_size_pct ≤ 0 →
      step par s sig = s) := by
  constructor
  · intro hty hpos
    simp [step, hty, handle_sell, hpos]
  · intro hty hcap
    simp [step, hty, handle_buy, hcap]

/-- Witness for C6: a SELL on a fresh engine and a BUY with zero capital are
both no-ops. -/
theorem soft_conditions_noop_witness :
    step (cryptoParams 1 0 0) (initState 100)
      ⟨0, SignalType.SELL, "BTC", 5, 1⟩ = initState 100
  ∧ step (cryptoParams 1 0 0) ⟨0, none, []⟩
      ⟨0, SignalType.BUY, "BTC", 5, 1⟩ = ⟨0, none, []⟩ :=
  ⟨(soft_conditions_noop _ _ _).1 rfl rfl,
   (soft_conditions_noop _ _ _).2 rfl (by norm_num)⟩

/-- C3: at-most-one-open-position invariant. Whatever signals are processed
from a fresh engine, the open-position state holds 0 or 1 positions for every
symbol; and a BUY arriving while a position for that same symbol is open (with
a positive computed notional) appends one Entry to that existing position
rather than creating a second one. -/
theorem at_most_one_open_position (par : EngineParams) (c : ℚ)
    (sigs : List TradingSignal) (sym : String) (s : EngineState)
    (sig : TradingSignal) (p : Position) :
    open_position_count (run par (initState c) sigs) sym ≤ 1
  ∧ (sig.signal_type = SignalType.BUY → s.current_position = some p →
      p.symbol = sig.symbol → 0 < s.capital * sig.position_size_pct →
      (step par s sig).current_position
        = some (p.add_entry sig.timestamp
            (apply_slippage_to_price par sig.price true)
            (s.capital * sig.position_size_pct)
            (compute_fee par (s.capital * sig.position_size_pct))
            (|apply_slippage_to_price par sig.price true - sig.price|
              * (s.capital * sig.position_size_pct
                  / apply_slippage_to_price par sig.price true)))) := by
  constructor
  · unfold open_position_count
    split
    · norm_num
    · split <;> norm_num
  · intro hty hpos _ hcap
    simp [step, hty, handle_buy, not_le.mpr hcap, hpos]

/-- Witness for C3: a BUY for BTC while a BTC position is open extends that
position to two entries. -/
theorem at_most_one_open_position_witness :
    open_position_count
      (run (cryptoParams 1 0 0) (initState 100) []) "BTC" ≤ 1
  ∧ (step (cryptoParams 1 0 0)
      ⟨100, some ⟨"BTC", 0, [⟨0, 10, 50, 0, 0⟩]⟩, []⟩
      ⟨1, SignalType.BUY, "BTC", 10, 1/2⟩).current_position
      = some ⟨"BTC", 0, [⟨0, 10, 50, 0, 0⟩, ⟨1, 10, 50, 0, 0⟩]⟩ :=
  ⟨(at_most_one_open_position (cryptoParams 1 0 0) 100 [] "BTC"
      (initState 100) ⟨1, SignalType.BUY, "BTC", 10, 1/2⟩
      ⟨"BTC", 0, [⟨0, 10, 50, 0, 0⟩]⟩).1,
   ((at_most_one_open_position (cryptoParams 1 0 0) 100 [] "BTC"
      ⟨100, some ⟨"BTC", 0, [⟨0, 10, 50, 0, 0⟩]⟩, []⟩
      ⟨1, SignalType.BUY, "BTC", 10, 1/2⟩
      ⟨"BTC", 0, [⟨0, 10, 50, 0, 0⟩]⟩).2 rfl rfl rfl (by norm_num)).trans
      (by norm_num [Position.add_entry, apply_slippage_to_price, cryptoParams,
        compute_fee, pyRound])⟩

/-- C10: signal dispatch ignores the symbol carried by the signal. A BUY arriving while any
position is open appends an Entry to it, whatever the two symbols are, and the
stored position keeps its own symbol; a SELL closes the open position whatever
symbol the SELL carries (one trade is appended); and replacing the symbol of
a signal changes neither the resulting capital nor whether a position is open. -/
theorem dispatch_ignores_symbol (par : EngineParams) (s : EngineState)
    (sig : TradingSignal) (p : Position) (sym : String) :
    (sig.signal_type = SignalType.BUY → s.current_position = some p →
      0 < s.capital * sig.position_size_pct →
      (step par s sig).current_position
        = some (p.add_entry sig.timestamp
            (apply_slippage_to_price par sig.price true)
            (s.capital * sig.position_size_pct)
            (compute_fee par (s.capital * sig.position_size_pct))
            (|apply_slippage_to_price par sig.price true - sig.price|
              * (s.capital * sig.position_size_pct
                  / apply_slippage_to_price par sig.price true))))
  ∧ (sig.signal_type = SignalType.SELL → s.current_position = some p →
      (step par s sig).current_position = none
        ∧ (step par s sig).completed_trades.length
            = s.completed_trades.length + 1)
  ∧ ((step par s { sig with symbol := sym }).capital = (step par s sig).capital
        ∧ (step par s { sig with symbol := sym }).current_position.isSome
            = (step par s sig).current_position.isSome) := by
  refine ⟨?_, ?_, ?_⟩
  · intro hty hpos hcap
    simp [step, hty, handle_buy, not_le.mpr hcap, hpos]
  · intro hty hpos
    simp [step, hty, handle_sell, hpos]
  · cases hty : sig.signal_type
    · by_cases hc : s.capital * sig.position_size_pct ≤ 0
      · simp [step, hty, handle_buy, hc]
      · cases hcp : s.current_position <;>
          simp [step, hty, handle_buy, hc, hcp]
    · cases hcp : s.current_position <;>
        simp [step, hty, handle_sell, hcp]

/-- Witness for C10: a BUY for ETH extends the open BTC position (which keeps
symbol BTC), and a SELL for DOGE closes the open BTC position. -/
theorem dispatch_ignores_symbol_witness :
    (step (cryptoParams 1 0 0)
      ⟨100, some ⟨"BTC", 0, [⟨0, 10, 50, 0, 0⟩]⟩, []⟩
      ⟨1, SignalType.BUY, "ETH", 10, 1/2⟩).current_position
      = some ⟨"BTC", 0, [⟨0, 10, 50, 0, 0⟩, ⟨1, 10, 50, 0, 0⟩]⟩
  ∧ (step (cryptoParams 1 0 0)
      ⟨100, some ⟨"BTC", 0, [⟨0, 10, 50, 0, 0⟩]⟩, []⟩
      ⟨1, SignalType.SELL, "DOGE", 10, 1/2⟩).current_position = none :=
  ⟨((dispatch_ignores_symbol (cryptoParams 1 0 0)
      ⟨100, some ⟨"BTC", 0, [⟨0, 10, 50, 0, 0⟩]⟩, []⟩
      ⟨1, SignalType.BUY, "ETH", 10, 1/2⟩
      ⟨"BTC", 0, [⟨0, 10, 50, 0, 0⟩]⟩ "Z").1 rfl rfl (by norm_num)).trans
      (by norm_num [Position.add_entry, apply_slippage_to_price, cryptoParams,
        compute_fee, pyRound]),
   ((dispatch_ignores_symbol (cryptoParams 1 0 0)
      ⟨100, some ⟨"BTC", 0, [⟨0, 10, 50, 0, 0⟩]⟩, []⟩
      ⟨1, SignalType.SELL, "DOGE", 10, 1/2⟩
      ⟨"BTC", 0, [⟨0, 10, 50, 0, 0⟩]⟩ "Z").2.1 rfl rfl).1⟩

/-- C7: averaging correctness. Two BUY signals processed from a state with no
open position yield one position with exactly the two entries; its
`total_crypto` is the sum of the two individual quantities
`notional / executed price`, and its `average_entry_price` is the
notional-weighted mean: total notional committed divided by total quantity. -/
theorem averaging_correctness (par : EngineParams) (s : EngineState)
    (sig1 sig2 : TradingSignal) (n1 p1 f1 sc1 n2 p2 f2 sc2 : ℚ)
    (h1 : sig1.signal_type = SignalType.BUY)
    (h2 : sig2.signal_type = SignalType.BUY)
    (hs : s.current_position = none)
    (hn1 : n1 = s.capital * sig1.position_size_pct)
    (hp1 : p1 = apply_slippage_to_price par sig1.price true)
    (hf1 : f1 = compute_fee par n1)
    (hsc1 : sc1 = |p1 - sig1.price| * (n1 / p1))
    (hn2 : n2 = (s.capital - (n1 + f1)) * sig2.position_size_pct)
    (hp2 : p2 = apply_slippage_to_price par sig2.price true)
    (hf2 : f2 = compute_fee par n2)
    (hsc2 : sc2 = |p2 - sig2.price| * (n2 / p2))
    (hn1pos : 0 < n1) (hn2pos : 0 < n2)
    (hp1pos : 0 < p1) (hp2pos : 0 < p2) :
    (step par (step par s sig1) sig2).current_position
      = some ⟨sig1.symbol, sig1.timestamp,
          [⟨sig1.timestamp, p1, n1, f1, sc1⟩, ⟨sig2.timestamp, p2, n2, f2, sc2⟩]⟩
  ∧ Position.total_crypto ⟨sig1.symbol, sig1.timestamp,
        [⟨sig1.timestamp, p1, n1, f1, sc1⟩, ⟨sig2.timestamp, p2, n2, f2, sc2⟩]⟩
      = n1 / p1 + n2 / p2
  ∧ Position.average_entry_price ⟨sig1.symbol, sig1.timestamp,
        [⟨sig1.timestamp, p1, n1, f1, sc1⟩, ⟨sig2.timestamp, p2, n2, f2, sc2⟩]⟩
      = (n1 + n2) / (n1 / p1 + n2 / p2) := by
  have hq1 : 0 < n1 / p1 := div_pos hn1pos hp1pos
  have hq2 : 0 < n2 / p2 := div_pos hn2pos hp2pos
  refine ⟨?_, ?_, ?_⟩
  · subst hp1 hf1 hn1 hsc1 hp2 hf2 hn2 hsc2
    have hskip1 : ¬ (s.capital * sig1.position_size_pct ≤ 0) := not_le.mpr hn1pos
    have hskip2 := not_le.mpr hn2pos
    simp [step, h1, h2, handle_buy, hs, hskip1, hskip2, Position.add_entry]
  · simp [Position.total_crypto]
  · have hsum : Position.total_crypto ⟨sig1.symbol, sig1.timestamp,
        [⟨sig1.timestamp, p1, n1, f1, sc1⟩, ⟨sig2.timestamp, p2, n2, f2, sc2⟩]⟩
        = n1 / p1 + n2 / p2 := by simp [Position.total_crypto]
    have hne : n1 / p1 + n2 / p2 ≠ 0 := ne_of_gt (add_pos hq1 hq2)
    simp [Position.average_entry_price, hsum, hne, Position.total_cost]

/-- Witness for C7: capital 100, no fees/slippage, BUY half the capital at 10,
then BUY half the remaining capital at 5; quantities are 5 and 5 and the
average entry price is 7.5. -/
theorem averaging_correctness_witness :
    (step (cryptoParams 1 0 0) (step (cryptoParams 1 0 0) (initState 100)
        ⟨0, SignalType.BUY, "BTC", 10, 1/2⟩)
        ⟨1, SignalType.BUY, "BTC", 5, 1/2⟩).current_position
      = some ⟨"BTC", 0, [⟨0, 10, 50, 0, 0⟩, ⟨1, 5, 25, 0, 0⟩]⟩
  ∧ Position.total_crypto ⟨"BTC", 0, [⟨0, 10, 50, 0, 0⟩, ⟨1, 5, 25, 0, 0⟩]⟩
      = 50 / 10 + 25 / 5
  ∧ Position.average_entry_price ⟨"BTC", 0, [⟨0, 10, 50, 0, 0⟩, ⟨1, 5, 25, 0, 0⟩]⟩
      = (50 + 25) / (50 / 10 + 25 / 5) :=
  averaging_correctness (cryptoParams 1 0 0) (initState 100)
    ⟨0, SignalType.BUY, "BTC", 10, 1/2⟩ ⟨1, SignalType.BUY, "BTC", 5, 1/2⟩
    50 10 0 0 25 5 0 0 rfl rfl rfl
    (by norm_num [initState])
    (by norm_num [apply_slippage_to_price, cryptoParams, pyRound])
    (by norm_num [compute_fee, cryptoParams])
    (by norm_num)
    (by norm_num [initState])
    (by norm_num [apply_slippage_to_price, cryptoParams, pyRound])
    (by norm_num [compute_fee, cryptoParams])
    (by norm_num)
    (by norm_num) (by norm_num) (by norm_num) (by norm_num)

/-- Observable used in the capital-conservation proof: the notional plus fees
committed into the currently open position (0 when no position is open). -/
def committed_plus_fees (s : EngineState) : ℚ :=
  match s.current_position with
  | none => 0
  | some p => p.total_cost + p.total_fees_on_entries

theorem handle_buy_preserves_funds (par : EngineParams) (s : EngineState)
    (sig : TradingSignal) :
    (handle_buy par s sig).capital + committed_plus_fees (handle_buy par s sig)
      = s.capital + committed_plus_fees s := by
  by_cases hc : s.capital * sig.position_size_pct ≤ 0
  · simp [handle_buy, hc]
  · cases hcp : s.current_position with
    | none =>
      simp [handle_buy, hc, hcp, committed_plus_fees, Position.add_entry,
        Position.total_cost, Position.total_fees_on_entries]
    | some q =>
      simp [handle_buy, hc, hcp, committed_plus_fees, Position.add_entry,
        Position.total_cost, Position.total_fees_on_entries]
      ring

theorem run_buys_preserves_funds (par : EngineParams) :
    ∀ (sigs : List TradingSignal) (s : EngineState),
    (∀ b ∈ sigs, b.signal_type = SignalType.BUY) →
    (run par s sigs).capital + committed_plus_fees (run par s sigs)
      = s.capital + committed_plus_fees s := by
  intro sigs
  induction sigs with
  | nil => intro s _; simp [run]
  | cons a l ih =>
    intro s h
    have ha := h a (List.mem_cons_self a l)
    have hl : ∀ b ∈ l, b.signal_type = SignalType.BUY :=
      fun b hb => h b (List.mem_cons_of_mem a hb)
    have hstep : run par s (a :: l) = run par (step par s a) l := by
      simp [run]
    rw [hstep, ih (step par s a) hl]
    have : step par s a = handle_buy par s a := by simp [step, ha]
    rw [this]
    exact handle_buy_preserves_funds par s a

/-- C1: capital conservation across one round trip. Starting with no open
position and processing any all-BUY signal stretch that leaves a position `p`
open, the closing SELL leaves the capital at
`capital_before − total notional committed − total entry fees
 + exit proceeds − exit fee`; and each executed BUY debits capital by exactly
`notional + fee` (the slippage cost is never separately debited). -/
theorem capital_conservation (par : EngineParams) (s : EngineState)
    (buys : List TradingSignal) (sell : TradingSignal) (p : Position)
    (hs : s.current_position = none)
    (hbuys : ∀ b ∈ buys, b.signal_type = SignalType.BUY)
    (hsell : sell.signal_type = SignalType.SELL)
    (hp : (run par s buys).current_position = some p) :
    (step par (run par s buys) sell).capital
      = s.capital - p.total_cost - p.total_fees_on_entries
        + p.total_crypto * apply_slippage_to_price par sell.price false
        - compute_fee par (p.total_crypto * apply_slippage_to_price par sell.price false)
  ∧ ∀ (e : EngineState) (sig : TradingSignal),
      sig.signal_type = SignalType.BUY →
      0 < e.capital * sig.position_size_pct →
      (step par e sig).capital
        = e.capital - (e.capital * sig.position_size_pct
            + compute_fee par (e.capital * sig.position_size_pct)) := by
  constructor
  · have hinv := run_buys_preserves_funds par buys s hbuys
    rw [show committed_plus_fees s = 0 by simp [committed_plus_fees, hs],
      show committed_plus_fees (run par s buys)
          = p.total_cost + p.total_fees_on_entries by
        simp [committed_plus_fees, hp]] at hinv
    simp [step, hsell, handle_sell, hp]
    linarith
  · intro e sig hty hpos
    simp [step, hty, handle_buy, not_le.mpr hpos]

/-- Witness for C1: capital 100, 10 percent fee, no slippage; BUY the whole
capital at price 1 (debit 100 + 10), SELL at price 2 (proceeds 200, fee 20):
final capital 100 − 100 − 10 + 200 − 20 = 170. -/
theorem capital_conservation_witness :
    (step (cryptoParams 1 0 (1/10))
        (run (cryptoParams 1 0 (1/10)) (initState 100)
          [⟨0, SignalType.BUY, "X", 1, 1⟩])
        ⟨1, SignalType.SELL, "X", 2, 1⟩).capital = 170
  ∧ (step (cryptoParams 1 0 (1/10)) (initState 100)
      ⟨0, SignalType.BUY, "X", 1, 1⟩).capital = -10 := by
  have H := capital_conservation (cryptoParams 1 0 (1/10)) (initState 100)
    [⟨0, SignalType.BUY, "X", 1, 1⟩] ⟨1, SignalType.SELL, "X", 2, 1⟩
    ⟨"X", 0, [⟨0, 1, 100, 10, 0⟩]⟩ rfl
    (by intro b hb; rw [List.mem_singleton] at hb; subst hb; rfl) rfl
    (by norm_num [run, step, handle_buy, initState, apply_slippage_to_price,
      cryptoParams, compute_fee, pyRound, Position.add_entry])
  refine ⟨H.1.trans ?_, (H.2 (initState 100) ⟨0, SignalType.BUY, "X", 1, 1⟩
    rfl (by norm_num [initState])).trans ?_⟩
  · norm_num [initState, Position.total_cost, Position.total_fees_on_entries,
      Position.total_crypto, apply_slippage_to_price, cryptoParams,
      compute_fee, pyRound]
  · norm_num [initState, compute_fee, cryptoParams]

/-- C2: the recorded `net_pnl` is `gross_pnl - exit_fee` only — entry fees are
not deducted. On the concrete run below (capital 100, 10 percent fee, no
slippage, BUY everything at 1, SELL at 1) the single completed trade records
`net_pnl = -10` while `gross_pnl - total_fees = -20` and
`capital_after - capital_before = 80 - 100 = -20`: both identities demanded by
the claim fail whenever entry fees are nonzero. -/
theorem net_pnl_omits_entry_fees :
    (run (cryptoParams 1 0 (1/10)) (initState 100)
        [⟨0, SignalType.BUY, "X", 1, 1⟩, ⟨1, SignalType.SELL, "X", 1, 1⟩]).completed_trades
      = [⟨"X", 0, 1, 1, 1, 1, 100, 100, 10, 10, 20, 0, 0, 0, 0, -10, 80, -10⟩]
  ∧ ¬ ((-10 : ℚ) = 0 - 20)
  ∧ ¬ ((-10 : ℚ) = 80 - 100) := by
  refine ⟨?_, by norm_num, by norm_num⟩
  norm_num [run, step, handle_buy, handle_sell, initState,
    apply_slippage_to_price, cryptoParams, compute_fee, pyRound,
    Position.add_entry, Position.total_cost, Position.total_fees_on_entries,
    Position.total_slippage_on_entries, Position.total_crypto,
    Position.average_entry_price]

/-- C9: cost-model lookup. For both static tables, a pair with no entry makes
the lookup fail with the configuration error (no fallback record is returned),
and a present pair returns exactly the stored configuration of that pair (for
futures, repackaged into the engine-compatible record with `quote_currency`
duplicated from `currency`). -/
theorem cost_model_lookup (exchange symbol : String) :
    (crypto_lookup exchange symbol = none →
      get_crypto_config exchange symbol = Except.error
        ("No se ha definido configuración para " ++ symbol ++ " en " ++ exchange))
  ∧ (∀ cfg, crypto_lookup exchange symbol = some cfg →
      get_crypto_config exchange symbol = Except.ok cfg)
  ∧ (futures_lookup exchange symbol = none →
      get_futures_config exchange symbol = Except.error
        ("No se ha definido configuración para " ++ symbol ++ " en " ++ exchange))
  ∧ (∀ raw, futures_lookup exchange symbol = some raw →
      get_futures_config exchange symbol = Except.ok
        { tick_size := raw.tick_size
          tick_value := raw.tick_value
          slippage_ticks := raw.slippage_ticks
          exchange_fee := raw.exchange_fee
          price_precision := raw.price_precision
          contract_size := raw.contract_size
          currency := raw.currency
          quote_currency := raw.currency }) := by
  refine ⟨?_, ?_, ?_, ?_⟩
  · intro h; simp [get_crypto_config, h]
  · intro cfg h; simp [get_crypto_config, h]
  · intro h; simp [get_futures_config, h]
  · intro raw h; simp [get_futures_config, h]

/-- Witness for C9: Binance has no DOGE entry, so the crypto lookup fails;
CME ES is present, so the futures lookup returns the stored ES record. -/
theorem cost_model_lookup_witness :
    get_crypto_config "Binance" "DOGE" = Except.error
      ("No se ha definido configuración para " ++ "DOGE" ++ " en " ++ "Binance")
  ∧ get_futures_config "CME" "ES" = Except.ok
      { tick_size := 1/4, tick_value := 25/2, slippage_ticks := 1,
        exchange_fee := 139/100, price_precision := 2, contract_size := 50,
        currency := "USD", quote_currency := "USD" } :=
  ⟨(cost_model_lookup "Binance" "DOGE").1 rfl,
   (cost_model_lookup "CME" "ES").2.2.2 ⟨1/4, 25/2, 50, 1, 139/100, 2, "USD"⟩ rfl⟩

end Backtest
